import Mathlib

/-!
Verification of the Tello mission navigation controller against its
specification.  The embedded code is src/controller/src/index.ts (the
controller proper, the PID module appended to it) and
src/controller/src/utils.ts.

Modelling conventions:
* JS numbers are exact rationals (`ℚ`); the one place where NaN matters
  (`parseFloat` feeding the telemetry validator) uses `JsNum`, which is
  either NaN or a rational.
* `Date.now()` timestamps are explicit rational parameters (milliseconds).
* JS `Math.round` is `jround` (round half toward positive infinity).
* A thrown exception is `Except.error`; `calculateObjectCoverage` throws a
  TypeError when it dereferences a null `object_coordinate`.
* Class instance state (`PIDController.state`, the three PID units of
  `NavigationController`) is passed explicitly and returned updated.
-/

/-- JS `Math.round`: round half toward positive infinity. -/
def jround (q : ℚ) : ℤ := ⌊q + 1 / 2⌋

/-- A JS number: NaN or an exact rational.  `typeof x === "number"` is true
for both. -/
inductive JsNum
  | nan
  | num (q : ℚ)
  deriving DecidableEq

/-- The only JS exception the modelled code can throw: reading a property
of `null` in `calculateObjectCoverage`. -/
inductive JsError
  | typeError
  deriving DecidableEq

deriving instance DecidableEq for Except

/-- index.ts (pid module): interface PIDGains. -/
structure PIDGains where
  kp : ℚ
  ki : ℚ
  kd : ℚ
  deriving DecidableEq

/-- index.ts (pid module): interface PIDState. -/
structure PIDState where
  integral : ℚ
  lastError : ℚ
  lastTime : ℚ
  deriving DecidableEq

/-- Constructor arguments of class PIDController: gains and the output
clamp `[minOutput, maxOutput]`. -/
structure PIDConfig where
  gains : PIDGains
  minOutput : ℚ
  maxOutput : ℚ
  deriving DecidableEq

/-- index.ts: `PIDController.calculate(error)`.  `now` is the value
`Date.now()` returns during the call.  Returns the clamped output together
with the updated instance state. -/
def PIDController.calculate (cfg : PIDConfig) (st : PIDState) (error : ℚ) (now : ℚ) :
    ℚ × PIDState :=
  let dt := (now - st.lastTime) / 1000
  let p := cfg.gains.kp * error
  let integralClamped := max (-100) (min 100 (st.integral + error * dt))
  let i := cfg.gains.ki * integralClamped
  let derivative := if 0 < dt then (error - st.lastError) / dt else 0
  let dTerm := cfg.gains.kd * derivative
  let output := p + i + dTerm
  (max cfg.minOutput (min cfg.maxOutput output), ⟨integralClamped, error, now⟩)

/-- index.ts: `PIDController.reset()`, with `now` the `Date.now()` value. -/
def PIDController.reset (now : ℚ) : PIDState := ⟨0, 0, now⟩

/-- The closed set of command shapes the controller constructs (plus the
raw `takeoff` issued by `runMission`); `Command.cw 30` stands for the
string `cw 30`, etc. -/
inductive Command
  | takeoff
  | land
  | cw (deg : ℤ)
  | ccw (deg : ℤ)
  | up (cm : ℤ)
  | down (cm : ℤ)
  | forward (cm : ℤ)
  deriving DecidableEq

/-- Pixel bounding box as built in `runMission` (rounded to integers). -/
structure BoundingBox where
  x_min : ℤ
  y_min : ℤ
  x_max : ℤ
  y_max : ℤ
  deriving DecidableEq

/-- index.ts (pid module): interface DetectionData. -/
structure DetectionData where
  frame_width : ℤ
  frame_height : ℤ
  object_coordinate : Option BoundingBox
  object_coverage_percentage : ℤ
  deriving DecidableEq

/-- utils.ts: `calculateObjectCoverage`.  Reads `x_max`/`x_min` of
`object_coordinate` without a null check, so a detection without a box
throws a TypeError; otherwise returns
`Math.round(objectArea / frameArea * 100)`. -/
def calculateObjectCoverage (data : DetectionData) : Except JsError ℤ :=
  match data.object_coordinate with
  | none => Except.error JsError.typeError
  | some obj =>
    let frameArea : ℚ := (data.frame_width : ℚ) * (data.frame_height : ℚ)
    let objectArea : ℚ := ((obj.x_max : ℚ) - (obj.x_min : ℚ)) * ((obj.y_max : ℚ) - (obj.y_min : ℚ))
    Except.ok (jround (objectArea / frameArea * 100))

/-- The three PID units owned by a NavigationController instance. -/
structure NavState where
  pidX : PIDState
  pidY : PIDState
  pidZ : PIDState
  deriving DecidableEq

/-- index.ts: `NavigationController.MIN_MOVE`. -/
def MIN_MOVE : ℤ := 20

/-- index.ts: `NavigationController.MAX_MOVE`. -/
def MAX_MOVE : ℤ := 100

/-- index.ts: `NavigationController.LANDING_COVERAGE`. -/
def LANDING_COVERAGE : ℤ := 75

/-- index.ts: `NavigationController.CENTER_TOLERANCE`. -/
def CENTER_TOLERANCE : ℚ := 50

/-- Gains and clamp of `this.pidX` (constructor of NavigationController). -/
def pidXConfig : PIDConfig := ⟨⟨15 / 100, 1 / 100, 5 / 100⟩, -100, 100⟩

/-- Gains and clamp of `this.pidY`. -/
def pidYConfig : PIDConfig := ⟨⟨12 / 100, 1 / 100, 4 / 100⟩, -100, 100⟩

/-- Gains and clamp of `this.pidZ`. -/
def pidZConfig : PIDConfig := ⟨⟨10 / 100, 1 / 100, 3 / 100⟩, -100, 100⟩

/-- index.ts: `NavigationController.reset()`: resets all three PID
controllers (each re-stamps `lastTime` to now). -/
def NavigationController.reset (now : ℚ) : NavState :=
  ⟨PIDController.reset now, PIDController.reset now, PIDController.reset now⟩

/-- `errorX = objCenterX - frameCenterX` in `generateCommand`
(object center minus frame center, positive = object right of center). -/
def detErrorX (d : DetectionData) (box : BoundingBox) : ℚ :=
  ((box.x_min : ℚ) + (box.x_max : ℚ)) / 2 - (d.frame_width : ℚ) / 2

/-- `errorY = frameCenterY - objCenterY` in `generateCommand`
(inverted: positive = object above center). -/
def detErrorY (d : DetectionData) (box : BoundingBox) : ℚ :=
  (d.frame_height : ℚ) / 2 - ((box.y_min : ℚ) + (box.y_max : ℚ)) / 2

/-- `outputX = this.pidX.calculate(errorX)` in `generateCommand`. -/
def outputXOf (nav : NavState) (d : DetectionData) (box : BoundingBox) (now : ℚ) : ℚ :=
  (PIDController.calculate pidXConfig nav.pidX (detErrorX d box) now).1

/-- `outputY = this.pidY.calculate(errorY)` in `generateCommand`. -/
def outputYOf (nav : NavState) (d : DetectionData) (box : BoundingBox) (now : ℚ) : ℚ :=
  (PIDController.calculate pidYConfig nav.pidY (detErrorY d box) now).1

/-- The navigation state after the two `calculate` calls of one
`generateCommand` cycle (pidZ is never stepped). -/
def afterPID (nav : NavState) (d : DetectionData) (box : BoundingBox) (now : ℚ) : NavState :=
  ⟨(PIDController.calculate pidXConfig nav.pidX (detErrorX d box) now).2,
   (PIDController.calculate pidYConfig nav.pidY (detErrorY d box) now).2,
   nav.pidZ⟩

/-- `rotationAngle = Math.abs(Math.round(outputX * 0.5))`. -/
def rotationAngleOf (nav : NavState) (d : DetectionData) (box : BoundingBox) (now : ℚ) : ℤ :=
  |jround (outputXOf nav d box now * (1 / 2))|

/-- `verticalMove = Math.abs(Math.round(outputY))`. -/
def verticalMoveOf (nav : NavState) (d : DetectionData) (box : BoundingBox) (now : ℚ) : ℤ :=
  |jround (outputYOf nav d box now)|

/-- `forwardDist = Math.max(MIN_MOVE, Math.min(MAX_MOVE,
Math.round((100 - coverage) * 1.5)))`. -/
def forwardDistOf (cov : ℤ) : ℤ :=
  max MIN_MOVE (min MAX_MOVE (jround (((100 - cov : ℤ) : ℚ) * (3 / 2))))

/-- index.ts: `NavigationController.generateCommand(detection, droneState?)`.
The `droneState` parameter of the source is never read in the body and is
omitted.  Returns the command together with the updated PID state.
Branches in source order: null box, landing coverage, centered-forward,
larger-horizontal-error (rotate if the derived angle is at least 5,
otherwise fall through), vertical branch, default `forward MIN_MOVE`. -/
def NavigationController.generateCommand (nav : NavState) (detection : DetectionData)
    (now : ℚ) : Command × NavState :=
  match detection.object_coordinate with
  | none => (Command.cw 30, NavigationController.reset now)
  | some box =>
    if LANDING_COVERAGE ≤ detection.object_coverage_percentage then
      (Command.land, NavigationController.reset now)
    else if |detErrorX detection box| < CENTER_TOLERANCE ∧
            |detErrorY detection box| < CENTER_TOLERANCE then
      (Command.forward (forwardDistOf detection.object_coverage_percentage),
       afterPID nav detection box now)
    else if |detErrorY detection box| < |detErrorX detection box| then
      (if 5 ≤ rotationAngleOf nav detection box now then
        (if 0 < detErrorX detection box then
          Command.cw (min (rotationAngleOf nav detection box now) 45)
        else
          Command.ccw (min (rotationAngleOf nav detection box now) 45))
      else
        Command.forward MIN_MOVE,
       afterPID nav detection box now)
    else
      (if MIN_MOVE ≤ verticalMoveOf nav detection box now then
        (if 0 < detErrorY detection box then
          Command.up (min (verticalMoveOf nav detection box now) MAX_MOVE)
        else
          Command.down (min (verticalMoveOf nav detection box now) MAX_MOVE))
      else
        Command.forward MIN_MOVE,
       afterPID nav detection box now)

/-- index.ts `runMission`: `if (command === "land") ... break` — the only
command that reports completion upstream and ends the loop. -/
def missionCompletes (c : Command) : Bool := c == Command.land

/-- One cycle of the `runMission` loop as observed from outside: whether
the cancellation token fires before this cycle's `while` check
(`abortBefore`, e.g. during the previous inter-cycle delay), whether it
fires during this cycle's awaits — frame capture, terminal rendering,
detection — i.e. after the check but before the command send (`abortMid`),
whether frame capture or detection throws (`captureFails`), the detector
output scaled to pixels (`coords`), and the `Date.now()` timestamp of the
cycle. -/
structure CycleInput where
  abortBefore : Bool
  abortMid : Bool
  captureFails : Bool
  frame_width : ℤ
  frame_height : ℤ
  coords : Option BoundingBox
  now : ℚ

/-- Externally visible events of a mission run. -/
inductive MissionEvent
  | abortFired
  | commandSent (c : Command)
  | missionCompleted
  deriving DecidableEq

/-- The body of one `runMission` loop cycle (index.ts lines 79-139): a
capture/detection failure is caught and skips the cycle; otherwise the
coverage is computed unconditionally (throwing — and getting caught — when
`coords` is null); otherwise the navigation policy produces one command
which is sent, and the loop breaks if it is `land`.  Returns the emitted
events, the updated NavigationController state and the completion flag. -/
def missionCycleBody (nav : NavState) (inp : CycleInput) :
    List MissionEvent × NavState × Bool :=
  if inp.captureFails then ([], nav, false)
  else
    match calculateObjectCoverage ⟨inp.frame_width, inp.frame_height, inp.coords, 0⟩ with
    | Except.error _ => ([], nav, false)
    | Except.ok cov =>
      let res := NavigationController.generateCommand nav
        ⟨inp.frame_width, inp.frame_height, inp.coords, cov⟩ inp.now
      (MissionEvent.commandSent res.1 ::
        (if missionCompletes res.1 then [MissionEvent.missionCompleted] else []),
       res.2, missionCompletes res.1)

/-- The `while (!signal.aborted)` loop of `runMission`: the token is
checked only at the head of each cycle; a cycle, once past the check, runs
to completion (including its command send) even if the token fires at one
of its suspension points.  `aborted` is the sticky state of the token at
the head check. -/
def runMissionLoop (nav : NavState) (aborted : Bool) : List CycleInput → List MissionEvent
  | [] => []
  | inp :: rest =>
    if aborted then []
    else if inp.abortBefore then [MissionEvent.abortFired]
    else
      let body := missionCycleBody nav inp
      let evts := (if inp.abortMid then [MissionEvent.abortFired] else []) ++ body.1
      if body.2.2 then evts
      else evts ++ runMissionLoop body.2.1 inp.abortMid rest

/-- Events that are vehicle commands. -/
def isCommandSent : MissionEvent → Bool
  | MissionEvent.commandSent _ => true
  | _ => false

/-- Number of commands in an event trace. -/
def countCommands (l : List MissionEvent) : ℕ := (l.filter isCommandSent).length

/-- Number of commands sent strictly after the cancellation token fired. -/
def commandsAfterAbort : List MissionEvent → ℕ
  | [] => 0
  | MissionEvent.abortFired :: rest => countCommands rest
  | MissionEvent.commandSent _ :: rest => commandsAfterAbort rest
  | MissionEvent.missionCompleted :: rest => commandsAfterAbort rest

/-- JS whitespace, for `String.prototype.trim`. -/
def isJsSpace (c : Char) : Bool := c == ' ' || c == '\t' || c == '\n' || c == '\r'

/-- JS `String.prototype.trim`, on the string's character list. -/
def trimChars (l : List Char) : List Char :=
  ((l.dropWhile isJsSpace).reverse.dropWhile isJsSpace).reverse

/-- JS `String.prototype.split` with a one-character separator, on the
string's character list: `"a;b".split(";") = ["a","b"]`,
`";".split(";") = ["",""]`, `"".split(";") = [""]`. -/
def splitOnSep (sep : Char) : List Char → List (List Char)
  | [] => [[]]
  | c :: rest =>
    if c = sep then [] :: splitOnSep sep rest
    else
      match splitOnSep sep rest with
      | [] => [[c]]
      | grp :: grps => (c :: grp) :: grps

/-- A (dynamically keyed) JS object of numeric fields, as built by the
telemetry parser: lookup by key (a key is a character list). -/
def TelloStateObj : Type := List Char → Option JsNum

/-- The empty object the parser starts from. -/
def emptyStateObj : TelloStateObj := fun _ => none

/-- `(state as any)[key] = v`. -/
def setKey (st : TelloStateObj) (key : List Char) (v : JsNum) : TelloStateObj :=
  fun k => if k = key then some v else st k

/-- Value of a digit list read in base 10. -/
def digitsVal (l : List Char) : ℕ :=
  l.foldl (fun acc c => acc * 10 + (c.toNat - 48)) 0

/-- JS `parseFloat`, modelled for plain decimal literals: skip leading
whitespace, optional sign, integer digits, optional fraction digits; NaN
when no digit is found (exponents and special forms are outside the inputs
this development evaluates). -/
def parseFloat (cs0 : List Char) : JsNum :=
  let cs := cs0.dropWhile isJsSpace
  let signedTail : ℚ × List Char :=
    match cs with
    | '-' :: rest => (-1, rest)
    | '+' :: rest => (1, rest)
    | _ => (1, cs)
  let intDigits := signedTail.2.takeWhile Char.isDigit
  let rest1 := signedTail.2.dropWhile Char.isDigit
  let fracDigits : List Char :=
    match rest1 with
    | '.' :: r => r.takeWhile Char.isDigit
    | _ => []
  if intDigits.isEmpty && fracDigits.isEmpty then JsNum.nan
  else JsNum.num (signedTail.1 *
    ((digitsVal intDigits : ℚ) + (digitsVal fracDigits : ℚ) / (10 ^ fracDigits.length)))

/-- `const [key, value] = pair.split(":")` followed by the guard
`if (key && value !== undefined)`: the key must be nonempty (truthy) and a
second split component must exist (not undefined). -/
def entrySplit (pair : List Char) : Option (List Char × List Char) :=
  match splitOnSep ':' pair with
  | key :: value :: _ => if key = [] then none else some (key, value)
  | _ => none

/-- The loop body of `parseTelloState`: assign `parseFloat(value)` under
`key` when the guard passes. -/
def telloFoldStep (st : TelloStateObj) (pair : List Char) : TelloStateObj :=
  match entrySplit pair with
  | some kv => setKey st kv.1 (parseFloat kv.2)
  | none => st

/-- index.ts: `parseTelloState`.  Splits the trimmed record on `;`, drops
empty pairs (`filter(Boolean)`), assigns each `key:value` pair, and
validates by `typeof state.h === "number" && typeof state.bat === "number"`
— i.e. by the two keys having been assigned (NaN is number-typed). -/
def parseTelloState (stateStr : String) : Option TelloStateObj :=
  let pairs := (splitOnSep ';' (trimChars stateStr.toList)).filter (fun p => p ≠ [])
  let st := pairs.foldl telloFoldStep emptyStateObj
  if (st ['h']).isSome && (st ['b', 'a', 't']).isSome then some st else none

/-- The key/value pairs of a record that pass the assignment guard. -/
def telloEntries (stateStr : String) : List (List Char × List Char) :=
  ((splitOnSep ';' (trimChars stateStr.toList)).filter (fun p => p ≠ [])).filterMap entrySplit

/-- index.ts: the `stateSocket.on("message")` handler: a successful parse
replaces the stored snapshot, a failed parse leaves it untouched. -/
def stateSocketMessage (droneState : Option TelloStateObj) (msg : String) :
    Option TelloStateObj :=
  match parseTelloState msg with
  | some parsed => some parsed
  | none => droneState

/-- The vehicle command grammar of the spec (subset the core emits):
`takeoff`, `land`, `cw`/`ccw` with degrees in 1..360, `up`/`down`/`forward`
with centimeters in 20..500. -/
def inCommandGrammar : Command → Prop
  | Command.takeoff => True
  | Command.land => True
  | Command.cw deg => 1 ≤ deg ∧ deg ≤ 360
  | Command.ccw deg => 1 ≤ deg ∧ deg ≤ 360
  | Command.up cm => 20 ≤ cm ∧ cm ≤ 500
  | Command.down cm => 20 ≤ cm ∧ cm ≤ 500
  | Command.forward cm => 20 ≤ cm ∧ cm ≤ 500

theorem forwardDistOf_lb (cov : ℤ) : 20 ≤ forwardDistOf cov := le_max_left _ _

theorem forwardDistOf_ub (cov : ℤ) : forwardDistOf cov ≤ 100 :=
  max_le (by norm_num [MIN_MOVE]) (min_le_left _ _)

/-- C9: the stored integral accumulator is clamped to [-100, 100] before
being scaled by ki, so it lies in [-100, 100] after every `calculate` call
(whatever the prior state, error and elapsed time, hence for any call
sequence), and `reset` zeroes it. -/
theorem pid_integral_clamped :
    (∀ (cfg : PIDConfig) (st : PIDState) (error now : ℚ),
      -100 ≤ ((PIDController.calculate cfg st error now).2).integral ∧
      ((PIDController.calculate cfg st error now).2).integral ≤ 100) ∧
    (∀ now : ℚ, (PIDController.reset now).integral = 0) := by
  constructor
  · intro cfg st error now
    refine ⟨le_max_left _ _, max_le (by norm_num) (min_le_left _ _)⟩
  · intro now
    rfl

/-- C10: every output of `calculate` lies within the configured clamp
interval [minOutput, maxOutput] (whatever the prior state, so along any
sequence of errors), provided the interval is nonempty. -/
theorem pid_output_clamped (cfg : PIDConfig) (st : PIDState) (error now : ℚ)
    (hminmax : cfg.minOutput ≤ cfg.maxOutput) :
    cfg.minOutput ≤ (PIDController.calculate cfg st error now).1 ∧
    (PIDController.calculate cfg st error now).1 ≤ cfg.maxOutput :=
  ⟨le_max_left _ _, max_le hminmax (min_le_left _ _)⟩

/-- Witness for C10 at the horizontal PID unit of the navigation
controller, freshly reset, on error 0 at time 0. -/
theorem pid_output_clamped_witness :
    pidXConfig.minOutput ≤ (PIDController.calculate pidXConfig (PIDController.reset 0) 0 0).1 ∧
    (PIDController.calculate pidXConfig (PIDController.reset 0) 0 0).1 ≤ pidXConfig.maxOutput :=
  pid_output_clamped pidXConfig (PIDController.reset 0) 0 0 (by norm_num [pidXConfig])

/-- C5: on a detection without a box the policy resets its PID units first
and returns the fixed rotate-search command `cw 30`: the returned state is
exactly the reset state, whose integral accumulators are both zero. -/
theorem absentBox_rotate_and_reset (nav : NavState) (w h cov : ℤ) (now : ℚ) :
    (NavigationController.generateCommand nav ⟨w, h, none, cov⟩ now).1 = Command.cw 30 ∧
    (NavigationController.generateCommand nav ⟨w, h, none, cov⟩ now).2 =
      NavigationController.reset now ∧
    ((NavigationController.generateCommand nav ⟨w, h, none, cov⟩ now).2).pidX.integral = 0 ∧
    ((NavigationController.generateCommand nav ⟨w, h, none, cov⟩ now).2).pidY.integral = 0 :=
  ⟨rfl, rfl, rfl, rfl⟩

/-- C4: every command the navigation policy returns is inside the vehicle
command grammar: `takeoff`, `land`, `cw`/`ccw` with 1..360 degrees,
`up`/`down`/`forward` with 20..500 centimeters — for every detection and
every PID state. -/
theorem generateCommand_respects_grammar (nav : NavState) (d : DetectionData) (now : ℚ) :
    inCommandGrammar (NavigationController.generateCommand nav d now).1 := by
  obtain ⟨w, hgt, ob, cov⟩ := d
  cases ob with
  | none => exact ⟨by norm_num, by norm_num⟩
  | some box =>
    simp only [NavigationController.generateCommand]
    split_ifs with h1 h2 h3 h4 h5 h6 h7
    · trivial
    · exact ⟨forwardDistOf_lb cov, (forwardDistOf_ub cov).trans (by norm_num)⟩
    · exact ⟨le_min (by omega) (by norm_num), (min_le_right _ _).trans (by norm_num)⟩
    · exact ⟨le_min (by omega) (by norm_num), (min_le_right _ _).trans (by norm_num)⟩
    · exact ⟨by norm_num [MIN_MOVE], by norm_num [MIN_MOVE]⟩
    · refine ⟨le_min (by simpa [MIN_MOVE] using h6) (by norm_num [MAX_MOVE]),
        (min_le_right _ _).trans (by norm_num [MAX_MOVE])⟩
    · refine ⟨le_min (by simpa [MIN_MOVE] using h6) (by norm_num [MAX_MOVE]),
        (min_le_right _ _).trans (by norm_num [MAX_MOVE])⟩
    · exact ⟨by norm_num [MIN_MOVE], by norm_num [MIN_MOVE]⟩

/-- C6: on a detection with a box whose coverage is at least the landing
threshold 75, the policy returns `land` regardless of the error
magnitudes; and `land` is the only command the mission loop treats as
mission completion. -/
theorem highCoverage_lands (nav : NavState) (d : DetectionData) (box : BoundingBox) (now : ℚ)
    (hb : d.object_coordinate = some box)
    (hcov : LANDING_COVERAGE ≤ d.object_coverage_percentage) :
    (NavigationController.generateCommand nav d now).1 = Command.land ∧
    (∀ c : Command, missionCompletes c = true ↔ c = Command.land) := by
  constructor
  · obtain ⟨w, hgt, ob, cov⟩ := d
    simp only at hb hcov
    subst hb
    simp only [NavigationController.generateCommand]
    rw [if_pos hcov]
  · intro c
    simp [missionCompletes]

/-- Witness for C6 at the spec's Example 3: frame 960x720, box
(0,0,912,684), coverage 90. -/
theorem highCoverage_lands_witness :
    (NavigationController.generateCommand (NavigationController.reset 0)
      ⟨960, 720, some ⟨0, 0, 912, 684⟩, 90⟩ 0).1 = Command.land ∧
    (∀ c : Command, missionCompletes c = true ↔ c = Command.land) :=
  highCoverage_lands (NavigationController.reset 0) ⟨960, 720, some ⟨0, 0, 912, 684⟩, 90⟩
    ⟨0, 0, 912, 684⟩ 0 rfl (by decide)

/-- C3: a detection without a box makes `calculateObjectCoverage` throw a
TypeError (it reads `x_max` of null) instead of returning a number, and
since the mission loop computes the coverage unconditionally before
invoking the policy, such a cycle takes the caught-error path: no command
is sent and the policy (with its rotate-search rule) is never reached —
the navigation state is left untouched. -/
theorem nullDetection_typeError_skips_policy (nav : NavState) (inp : CycleInput)
    (d : DetectionData) (hd : d.object_coordinate = none) (hc : inp.coords = none)
    (hcap : inp.captureFails = false) :
    calculateObjectCoverage d = Except.error JsError.typeError ∧
    missionCycleBody nav inp = ([], nav, false) := by
  constructor
  · unfold calculateObjectCoverage
    rw [hd]
  · unfold missionCycleBody
    rw [hcap, hc]
    simp [calculateObjectCoverage]

/-- Witness for C3: the null-box detection of a cycle whose capture
succeeded. -/
theorem nullDetection_typeError_skips_policy_witness :
    calculateObjectCoverage ⟨960, 720, none, 0⟩ = Except.error JsError.typeError ∧
    missionCycleBody (NavigationController.reset 0) ⟨false, false, false, 960, 720, none, 0⟩ =
      ([], NavigationController.reset 0, false) :=
  nullDetection_typeError_skips_policy (NavigationController.reset 0)
    ⟨false, false, false, 960, 720, none, 0⟩ ⟨960, 720, none, 0⟩ rfl rfl rfl

/-- Formalisation of claim C8 exactly as stated (from the spec's words):
for every box with `x_min < x_max`, `y_min < y_max` and positive frame
dimensions, the computed coverage equals
`round(100 * area(B) / area(frame))` and lies in [0, 100]. -/
def coverageRangeClaim : Prop :=
  ∀ (W H : ℤ) (b : BoundingBox) (cov r : ℤ),
    b.x_min < b.x_max → b.y_min < b.y_max → 0 < W → 0 < H →
    calculateObjectCoverage ⟨W, H, some b, cov⟩ = Except.ok r →
    r = jround (100 * (((b.x_max - b.x_min) * (b.y_max - b.y_min) : ℤ) : ℚ) / ((W * H : ℤ) : ℚ)) ∧
    0 ≤ r ∧ r ≤ 100

/-- C8 as stated is false: nothing bounds the box inside the frame, and a
960x720 frame with box (0,0,2000,2000) yields coverage 579, outside
[0, 100]. -/
theorem coverage_range_refuted : ¬ coverageRangeClaim := by
  intro hclaim
  have h := hclaim 960 720 ⟨0, 0, 2000, 2000⟩ 0 579 (by decide) (by decide) (by decide)
    (by decide) (by norm_num [calculateObjectCoverage, jround])
  exact absurd h.2.2 (by decide)

/-- C8 (amended): with the box additionally contained in the frame
(`0 ≤ x_min`, `x_max ≤ frame width`, likewise vertically), the coverage
equals `round(100 * area(B) / area(frame))` and lies in [0, 100]. -/
theorem coverage_formula_bounded (W H : ℤ) (b : BoundingBox) (cov r : ℤ)
    (hx : b.x_min < b.x_max) (hy : b.y_min < b.y_max) (hW : 0 < W) (hH : 0 < H)
    (hx0 : 0 ≤ b.x_min) (hy0 : 0 ≤ b.y_min) (hxW : b.x_max ≤ W) (hyH : b.y_max ≤ H)
    (hr : calculateObjectCoverage ⟨W, H, some b, cov⟩ = Except.ok r) :
    r = jround (100 * (((b.x_max - b.x_min) * (b.y_max - b.y_min) : ℤ) : ℚ) / ((W * H : ℤ) : ℚ)) ∧
    0 ≤ r ∧ r ≤ 100 := by
  have hval : r = jround ((((b.x_max : ℚ) - (b.x_min : ℚ)) * ((b.y_max : ℚ) - (b.y_min : ℚ))) /
      ((W : ℚ) * (H : ℚ)) * 100) := by
    simp only [calculateObjectCoverage, Except.ok.injEq] at hr
    exact hr.symm
  have hA0 : (0 : ℚ) ≤ ((b.x_max : ℚ) - (b.x_min : ℚ)) * ((b.y_max : ℚ) - (b.y_min : ℚ)) := by
    have h1 : (b.x_min : ℚ) ≤ (b.x_max : ℚ) := by exact_mod_cast hx.le
    have h2 : (b.y_min : ℚ) ≤ (b.y_max : ℚ) := by exact_mod_cast hy.le
    nlinarith
  have hFpos : (0 : ℚ) < (W : ℚ) * (H : ℚ) := by
    have h1 : (0 : ℚ) < (W : ℚ) := by exact_mod_cast hW
    have h2 : (0 : ℚ) < (H : ℚ) := by exact_mod_cast hH
    positivity
  have hAF : ((b.x_max : ℚ) - (b.x_min : ℚ)) * ((b.y_max : ℚ) - (b.y_min : ℚ)) ≤
      (W : ℚ) * (H : ℚ) := by
    have h1 : (b.x_max : ℚ) - (b.x_min : ℚ) ≤ (W : ℚ) := by
      exact_mod_cast by omega
    have h2 : (b.y_max : ℚ) - (b.y_min : ℚ) ≤ (H : ℚ) := by
      exact_mod_cast by omega
    have h3 : (0 : ℚ) ≤ (b.y_max : ℚ) - (b.y_min : ℚ) := by
      have h2 : (b.y_min : ℚ) ≤ (b.y_max : ℚ) := by exact_mod_cast hy.le
      linarith
    have h4 : (0 : ℚ) ≤ (W : ℚ) := by
      have : (0 : ℚ) < (W : ℚ) := by exact_mod_cast hW
      linarith
    exact mul_le_mul h1 h2 h3 h4
  have hq0 : (0 : ℚ) ≤ (((b.x_max : ℚ) - (b.x_min : ℚ)) * ((b.y_max : ℚ) - (b.y_min : ℚ))) /
      ((W : ℚ) * (H : ℚ)) * 100 := by positivity
  have hq1 : (((b.x_max : ℚ) - (b.x_min : ℚ)) * ((b.y_max : ℚ) - (b.y_min : ℚ))) /
      ((W : ℚ) * (H : ℚ)) * 100 ≤ 100 := by
    have h1 : (((b.x_max : ℚ) - (b.x_min : ℚ)) * ((b.y_max : ℚ) - (b.y_min : ℚ))) /
        ((W : ℚ) * (H : ℚ)) ≤ 1 := (div_le_one hFpos).mpr hAF
    nlinarith
  refine ⟨?_, ?_, ?_⟩
  · rw [hval]
    congr 1
    push_cast
    ring
  · rw [hval]
    unfold jround
    exact Int.floor_nonneg.mpr (by linarith)
  · rw [hval]
    unfold jround
    have h101 : (((b.x_max : ℚ) - (b.x_min : ℚ)) * ((b.y_max : ℚ) - (b.y_min : ℚ))) /
        ((W : ℚ) * (H : ℚ)) * 100 + 1 / 2 < ((101 : ℤ) : ℚ) := by push_cast; linarith
    have h2 := Int.floor_lt.mpr h101
    omega

/-- Witness for C8 (amended) at the spec's Example 3: frame 960x720, box
(0,0,912,684), coverage 90. -/
theorem coverage_formula_bounded_witness :
    calculateObjectCoverage ⟨960, 720, some ⟨0, 0, 912, 684⟩, 0⟩ = Except.ok 90 ∧
    (0 : ℤ) ≤ 90 ∧ (90 : ℤ) ≤ 100 :=
  ⟨by norm_num [calculateObjectCoverage, jround],
   (coverage_formula_bounded 960 720 ⟨0, 0, 912, 684⟩ 0 90 (by decide) (by decide)
    (by decide) (by decide) (by decide) (by decide) (by decide) (by decide)
    (by norm_num [calculateObjectCoverage, jround])).2⟩

/-- First cycle box of the C2 counterexample run (object right of and
below center). -/
def C2box1 : BoundingBox := ⟨600, 630, 670, 690⟩

/-- Second cycle box of the C2 counterexample run (object right of and
above center, horizontal error dominating). -/
def C2box2 : BoundingBox := ⟨600, 230, 660, 290⟩

/-- First cycle detection, coverage 1. -/
def C2det1 : DetectionData := ⟨960, 720, some C2box1, 1⟩

/-- Second cycle detection, coverage 1. -/
def C2det2 : DetectionData := ⟨960, 720, some C2box2, 1⟩

/-- PID state after one `generateCommand` cycle at t = 1000 ms from a
controller reset at t = 0. -/
def C2nav : NavState :=
  (NavigationController.generateCommand (NavigationController.reset 0) C2det1 1000).2

theorem C2nav_eq : C2nav = ⟨⟨100, 155, 1000⟩, ⟨-100, -300, 1000⟩, ⟨0, 0, 0⟩⟩ := by
  norm_num [C2nav, NavigationController.generateCommand, NavigationController.reset,
    PIDController.reset, PIDController.calculate, afterPID, detErrorX, detErrorY,
    C2det1, C2box1, LANDING_COVERAGE, CENTER_TOLERANCE, jround, outputXOf, outputYOf,
    verticalMoveOf, rotationAngleOf, MIN_MOVE, MAX_MOVE, forwardDistOf, pidXConfig, pidYConfig]

theorem C2rot : rotationAngleOf C2nav C2det2 C2box2 1010 = 1 := by
  rw [C2nav_eq]
  norm_num [rotationAngleOf, outputXOf, PIDController.calculate, detErrorX, C2det2, C2box2,
    pidXConfig, jround]

theorem C2vm : verticalMoveOf C2nav C2det2 C2box2 1010 = 100 := by
  rw [C2nav_eq]
  norm_num [verticalMoveOf, outputYOf, PIDController.calculate, detErrorY, C2det2, C2box2,
    pidYConfig, jround]

theorem C2gen : (NavigationController.generateCommand C2nav C2det2 1010).1 =
    Command.forward 20 := by
  rw [C2nav_eq]
  norm_num [NavigationController.generateCommand, PIDController.calculate, afterPID,
    detErrorX, detErrorY, C2det2, C2box2, LANDING_COVERAGE, CENTER_TOLERANCE, jround,
    outputXOf, outputYOf, verticalMoveOf, rotationAngleOf, MIN_MOVE, MAX_MOVE,
    forwardDistOf, pidXConfig, pidYConfig]

/-- Formalisation of claim C2 exactly as stated (from the spec's words):
when the object is present, below landing coverage, not centered, and
horizontal error strictly dominates but the derived rotation angle is
below the 5-degree threshold, the policy is claimed to derive an altitude
delta from the vertical PID output (capped at MAX_MOVE) and emit up/down
by its sign, suppressed only below the MIN_MOVE (20 cm) threshold. -/
def ruleFiveClaim : Prop :=
  ∀ (nav : NavState) (d : DetectionData) (box : BoundingBox) (now : ℚ),
    d.object_coordinate = some box →
    d.object_coverage_percentage < LANDING_COVERAGE →
    ¬(|detErrorX d box| < CENTER_TOLERANCE ∧ |detErrorY d box| < CENTER_TOLERANCE) →
    |detErrorY d box| < |detErrorX d box| →
    rotationAngleOf nav d box now < 5 →
    (NavigationController.generateCommand nav d now).1 =
      (if MIN_MOVE ≤ verticalMoveOf nav d box now then
        (if 0 < detErrorY d box then
          Command.up (min (verticalMoveOf nav d box now) MAX_MOVE)
        else
          Command.down (min (verticalMoveOf nav d box now) MAX_MOVE))
      else
        Command.forward MIN_MOVE)

/-- C2 as stated is false: in the run `C2det1` then `C2det2` the second
cycle has horizontal error 150 dominating vertical error 100, rotation
angle 1 (below threshold) and vertical PID output 100, yet the code emits
`forward 20` where the claim requires `up 100` — the sub-threshold
horizontal branch falls through to the default forward hop instead of
consulting the vertical axis. -/
theorem ruleFive_vertical_fallback_refuted : ¬ ruleFiveClaim := by
  intro hclaim
  have h := hclaim C2nav C2det2 C2box2 1010 rfl (by decide)
    (by norm_num [detErrorX, detErrorY, C2det2, C2box2, CENTER_TOLERANCE])
    (by norm_num [detErrorX, detErrorY, C2det2, C2box2])
    (by rw [C2rot]; norm_num)
  rw [C2gen, C2vm] at h
  norm_num [MIN_MOVE, MAX_MOVE, detErrorY, C2det2, C2box2] at h
  exact Command.noConfusion h

/-- C2 (amended): when the object is present, below landing coverage, not
centered, horizontal error strictly dominates and the derived rotation
angle is below the 5-degree threshold, the policy does not consult the
vertical axis at all: it falls through to the default small forward hop
`forward 20`. -/
theorem rotation_subthreshold_forward_default (nav : NavState) (d : DetectionData)
    (box : BoundingBox) (now : ℚ)
    (hb : d.object_coordinate = some box)
    (hcov : d.object_coverage_percentage < LANDING_COVERAGE)
    (hnc : ¬(|detErrorX d box| < CENTER_TOLERANCE ∧ |detErrorY d box| < CENTER_TOLERANCE))
    (hdom : |detErrorY d box| < |detErrorX d box|)
    (hrot : rotationAngleOf nav d box now < 5) :
    (NavigationController.generateCommand nav d now).1 = Command.forward MIN_MOVE := by
  obtain ⟨w, hgt, ob, cov⟩ := d
  simp only at hb hcov hnc hdom hrot
  subst hb
  simp only [NavigationController.generateCommand]
  rw [if_neg (not_le.mpr hcov), if_neg hnc, if_pos hdom, if_neg (not_le.mpr hrot)]

/-- Witness for C2 (amended) at the concrete two-cycle run of the
counterexample. -/
theorem rotation_subthreshold_forward_default_witness :
    (NavigationController.generateCommand C2nav C2det2 1010).1 = Command.forward MIN_MOVE :=
  rotation_subthreshold_forward_default C2nav C2det2 C2box2 1010 rfl (by decide)
    (by norm_num [detErrorX, detErrorY, C2det2, C2box2, CENTER_TOLERANCE])
    (by norm_num [detErrorX, detErrorY, C2det2, C2box2])
    (by rw [C2rot]; norm_num)


/-- The C1 counterexample cycle: capture succeeds, the object is detected
centered (box (380,260,580,460), spec Example 1), and the cancellation
token fires during the cycle's awaits, after the head check. -/
def C1input : CycleInput := ⟨false, true, false, 960, 720, some ⟨380, 260, 580, 460⟩, 1000⟩

theorem C1cov : calculateObjectCoverage ⟨960, 720, some ⟨380, 260, 580, 460⟩, 0⟩ =
    Except.ok 6 := by
  norm_num [calculateObjectCoverage, jround]

theorem C1gen : (NavigationController.generateCommand (NavigationController.reset 0)
    ⟨960, 720, some ⟨380, 260, 580, 460⟩, 6⟩ 1000).1 = Command.forward 100 := by
  norm_num [NavigationController.generateCommand, NavigationController.reset,
    PIDController.reset, PIDController.calculate, afterPID, detErrorX, detErrorY,
    LANDING_COVERAGE, CENTER_TOLERANCE, jround, outputXOf, outputYOf, verticalMoveOf,
    rotationAngleOf, MIN_MOVE, MAX_MOVE, forwardDistOf, pidXConfig, pidYConfig]

theorem C1trace : runMissionLoop (NavigationController.reset 0) false [C1input] =
    [MissionEvent.abortFired, MissionEvent.commandSent (Command.forward 100)] := by
  simp only [runMissionLoop, missionCycleBody, C1input, Bool.false_eq_true, if_false,
    C1cov, C1gen, missionCompletes]
  norm_num [runMissionLoop]
  exact fun hx => Command.noConfusion hx

/-- Formalisation of claim C1 exactly as stated (from the spec's words):
after the cancellation token fires the control loop issues no further
vehicle command, whenever it fires. -/
def cancellationImmediateClaim : Prop :=
  ∀ (nav : NavState) (inputs : List CycleInput),
    commandsAfterAbort (runMissionLoop nav false inputs) = 0

/-- C1 as stated is false: the loop checks the token only at the top of
the `while`, not after its suspension points, so a token firing during
frame capture or detection still lets that cycle send its command — here
`forward 100` is sent after the token fired. -/
theorem cancellation_not_after_suspension : ¬ cancellationImmediateClaim := by
  intro hclaim
  have h := hclaim (NavigationController.reset 0) [C1input]
  rw [C1trace] at h
  simp [commandsAfterAbort, countCommands, isCommandSent] at h

theorem runMissionLoop_aborted (nav : NavState) (inputs : List CycleInput) :
    runMissionLoop nav true inputs = [] := by
  cases inputs with
  | nil => rfl
  | cons inp rest => simp [runMissionLoop]

theorem countCommands_le_one_body (nav : NavState) (inp : CycleInput) :
    countCommands (missionCycleBody nav inp).1 ≤ 1 := by
  unfold missionCycleBody
  split
  · simp [countCommands]
  · split
    · simp [countCommands]
    · dsimp only
      split_ifs <;> simp [countCommands, isCommandSent, List.filter]

theorem missionCycleBody_noAbortFired (nav : NavState) (inp : CycleInput) :
    MissionEvent.abortFired ∉ (missionCycleBody nav inp).1 := by
  unfold missionCycleBody
  split
  · simp
  · split
    · simp
    · dsimp only
      split_ifs <;> simp

theorem commandsAfterAbort_eq_zero (l : List MissionEvent)
    (hl : MissionEvent.abortFired ∉ l) : commandsAfterAbort l = 0 := by
  induction l with
  | nil => rfl
  | cons e t ih =>
    cases e with
    | abortFired => exact absurd (List.mem_cons_self _ _) hl
    | commandSent c => exact ih (fun hm => hl (List.mem_cons_of_mem _ hm))
    | missionCompleted => exact ih (fun hm => hl (List.mem_cons_of_mem _ hm))

theorem commandsAfterAbort_append_noAbort (l r : List MissionEvent)
    (hl : MissionEvent.abortFired ∉ l) :
    commandsAfterAbort (l ++ r) = commandsAfterAbort r := by
  induction l with
  | nil => rfl
  | cons e t ih =>
    cases e with
    | abortFired => exact absurd (List.mem_cons_self _ _) hl
    | commandSent c =>
      simp only [List.cons_append, commandsAfterAbort]
      exact ih (fun hm => hl (List.mem_cons_of_mem _ hm))
    | missionCompleted =>
      simp only [List.cons_append, commandsAfterAbort]
      exact ih (fun hm => hl (List.mem_cons_of_mem _ hm))

theorem commandsAfterAbort_le_one (inputs : List CycleInput) :
    ∀ nav : NavState, commandsAfterAbort (runMissionLoop nav false inputs) ≤ 1 := by
  induction inputs with
  | nil =>
    intro nav
    simp [runMissionLoop, commandsAfterAbort]
  | cons inp rest ih =>
    intro nav
    have hbody1 := countCommands_le_one_body nav inp
    have hbody2 := missionCycleBody_noAbortFired nav inp
    simp only [runMissionLoop, Bool.false_eq_true, if_false]
    by_cases hb : inp.abortBefore = true
    · rw [if_pos hb]
      simp [commandsAfterAbort, countCommands]
    · rw [if_neg hb]
      by_cases hm : inp.abortMid = true
      · rw [hm]
        rw [runMissionLoop_aborted, List.append_nil, ite_self]
        simp only [eq_self_iff_true, if_true, List.singleton_append, commandsAfterAbort]
        exact hbody1
      · rw [Bool.not_eq_true] at hm
        rw [hm]
        simp only [Bool.false_eq_true, if_false, List.nil_append]
        by_cases hflag : (missionCycleBody nav inp).2.2 = true
        · rw [if_pos hflag, commandsAfterAbort_eq_zero _ hbody2]
          norm_num
        · rw [if_neg hflag, commandsAfterAbort_append_noAbort _ _ hbody2]
          exact ih _

/-- C1 (amended): once the top-of-cycle check observes the fired token the
loop exits immediately and issues no event at all; since that check is the
only one (there is none after the suspension points), a token firing
mid-cycle lets exactly the one in-flight cycle finish and send its
command: over every schedule, at most one command is sent after the token
fires, and a newly started mission's loop can overlap with that final
in-flight command of the old loop. -/
theorem mission_cancellation_bounded :
    (∀ (nav : NavState) (inputs : List CycleInput), runMissionLoop nav true inputs = []) ∧
    (∀ (nav : NavState) (inputs : List CycleInput),
      commandsAfterAbort (runMissionLoop nav false inputs) ≤ 1) :=
  ⟨runMissionLoop_aborted, fun nav inputs => commandsAfterAbort_le_one inputs nav⟩

theorem telloFold_isSome (l : List (List Char)) (st0 : TelloStateObj) (k : List Char) :
    ((l.foldl telloFoldStep st0) k).isSome =
      ((l.filterMap entrySplit).any (fun e => e.1 == k) || (st0 k).isSome) := by
  induction l generalizing st0 with
  | nil => simp
  | cons p t ih =>
    simp only [List.foldl_cons, List.filterMap_cons]
    cases hp : entrySplit p with
    | none => simp [telloFoldStep, hp, ih]
    | some kv =>
      simp only [telloFoldStep, hp, List.any_cons, ih, setKey]
      by_cases hk : k = kv.1
      · simp [hk]
      · have hk2 : ¬(kv.1 == k) = true := by
          simp [beq_iff_eq]
          exact fun h => hk h.symm
        simp [hk, hk2, Bool.or_assoc]

theorem parseTelloState_isSome (s : String) :
    (parseTelloState s).isSome =
      ((telloEntries s).any (fun e => e.1 == ['h']) &&
       (telloEntries s).any (fun e => e.1 == ['b', 'a', 't'])) := by
  unfold parseTelloState telloEntries
  dsimp only
  rw [telloFold_isSome, telloFold_isSome]
  split_ifs with hC
  · simp only [Option.isSome_some]
    simp only [emptyStateObj, Option.isSome_none, Bool.or_false] at hC
    exact hC.symm
  · simp only [Option.isSome_none]
    simp only [emptyStateObj, Option.isSome_none, Bool.or_false] at hC
    rw [Bool.not_eq_true] at hC
    exact hC.symm

/-- There is an entry for `key` whose value text is numeric (parseFloat
yields an actual number, not NaN). -/
def numericEntry (s : String) (key : List Char) : Bool :=
  (telloEntries s).any (fun e => e.1 == key &&
    (match parseFloat e.2 with
     | JsNum.num _ => true
     | JsNum.nan => false))

/-- Formalisation of claim C7's validity condition exactly as stated
(from the spec's words): a record parses to a valid snapshot if and only
if its height and battery fields are present and numeric. -/
def telemetryNumericClaim : Prop :=
  ∀ s : String, (parseTelloState s).isSome =
    (numericEntry s ['h'] && numericEntry s ['b', 'a', 't'])

/-- C7 as stated is false: `"h:x;bat:80"` has a height field that is
present but not numeric, yet it parses to a valid snapshot — parseFloat
returns NaN, which is number-typed, so the `typeof` validation accepts
it. -/
theorem telemetry_numeric_iff_refuted : ¬ telemetryNumericClaim := by
  intro hclaim
  have h := hclaim "h:x;bat:80"
  rw [show (parseTelloState "h:x;bat:80").isSome = true from by decide] at h
  rw [show numericEntry "h:x;bat:80" ['h'] = false from by decide] at h
  simp at h

/-- C7 (amended): a record parses to a valid snapshot if and only if its
`h` and `bat` keys are both present with a value (the value text need not
be numeric, since parseFloat's NaN is number-typed); the spec's example
`"h:45;bat:80;tof:50"` parses with height 45 (and battery 80); `"bat:80"`
(missing height) yields no snapshot; and a failed parse never replaces the
previously stored snapshot. -/
theorem telemetry_validity_presence :
    (∀ s : String, (parseTelloState s).isSome =
      ((telloEntries s).any (fun e => e.1 == ['h']) &&
       (telloEntries s).any (fun e => e.1 == ['b', 'a', 't']))) ∧
    (parseTelloState "h:45;bat:80;tof:50").map (fun st => st ['h']) =
      some (some (JsNum.num 45)) ∧
    (parseTelloState "h:45;bat:80;tof:50").map (fun st => st ['b', 'a', 't']) =
      some (some (JsNum.num 80)) ∧
    parseTelloState "bat:80" = none ∧
    (∀ (prev : Option TelloStateObj) (s : String),
      parseTelloState s = none → stateSocketMessage prev s = prev) := by
  refine ⟨parseTelloState_isSome, ?_, ?_, rfl, ?_⟩
  · have h : (parseTelloState "h:45;bat:80;tof:50").map (fun st => st ['h']) =
        some (some (JsNum.num (1 * (((45 : ℕ) : ℚ) + ((0 : ℕ) : ℚ) / 10 ^ (0 : ℕ))))) := rfl
    rw [h]
    norm_num
  · have h : (parseTelloState "h:45;bat:80;tof:50").map (fun st => st ['b', 'a', 't']) =
        some (some (JsNum.num (1 * (((80 : ℕ) : ℚ) + ((0 : ℕ) : ℚ) / 10 ^ (0 : ℕ))))) := rfl
    rw [h]
    norm_num
  · intro prev s hs
    unfold stateSocketMessage
    rw [hs]

/-- Witness for C7 (amended): the failing record `"bat:80"` leaves a
stored snapshot untouched. -/
theorem telemetry_validity_presence_witness :
    stateSocketMessage (some emptyStateObj) "bat:80" = some emptyStateObj :=
  telemetry_validity_presence.2.2.2.2 (some emptyStateObj) "bat:80" rfl
